import Mathlib

/-!
Verification of the seans-tools MCP server repository.

This file embeds, in Lean, the tool-dispatch code of the repository:

* `seans_tools_mcp_server.py` — the local stdio binding
  (`handle_list_tools`, `handle_call_tool`);
* `cdk-cloud-deployed-version/cloud_mcp_proxy.py` — the remote-proxy binding
  (`handle_list_tools`, `handle_call_tool`);
* `cdk-cloud-deployed-version/lambda_functions/mcp_server/mcp_server.py` —
  the MCP-over-HTTP dispatcher (`lambda_handler`, `list_tools`, `call_tool`);
* the per-tool REST handlers (`math_add.py`, `get_random_number.py`,
  `get_random_number_list.py`, `get_random_choice.py`).

Modelling conventions:

* Python runtime values are modelled by `PyVal`.  Python numbers are exact:
  `int` carries an integer and `float` an exact rational, so IEEE-754
  rounding is abstracted away; the arithmetic the claims speak about is the
  exact one.  Python `bool` participates in arithmetic as 0/1, as in Python.
* Python `str(float)` formatting is modelled by `floatStr`, which agrees
  with Python on every value whose decimal expansion terminates within 17
  digits (in particular on all integral floats, rendered `"2.0"`).
* The pseudo-random module is modelled by a `RandGen` oracle: `RandGen.real t`
  stands for the t-th call of `random.random()` inside one tool call
  (faithful when `0 ≤ real t < 1`), and `RandGen.nat t` drives the t-th
  index selection of `random.choice` / `random.sample`.
* A raised-and-uncaught Python exception is `Except.error msg`; the exact
  interpreter message of a `TypeError`/`AttributeError` is abstracted to a
  short tag, since no claim depends on those texts.  `ValueError` messages
  raised explicitly by the code are reproduced verbatim.
* Statelessness is expressed by the embedding itself: every handler is a
  pure function of its arguments and the random oracle, so an execution can
  leave no state behind by construction.
-/

/-- A Python/JSON runtime value.  `int`/`float` are Python numbers (exact
model), `dict` is an insertion-ordered string-keyed dictionary, `none` is
Python `None` / JSON `null`. -/
inductive PyVal where
  | int : Int → PyVal
  | float : Rat → PyVal
  | str : String → PyVal
  | bool : Bool → PyVal
  | arr : List PyVal → PyVal
  | dict : List (String × PyVal) → PyVal
  | none : PyVal

/-- One MCP content item; models `TextContent(type="text", text=s)` of the
local bindings and the text-item object of the cloud server. -/
inductive ContentItem where
  | text : String → ContentItem
deriving DecidableEq

/-- The pseudo-random source: `real t` models the t-th `random.random()`
draw, `nat t` the t-th raw index draw used by `choice`/`sample`. -/
structure RandGen where
  nat : Nat → Nat
  real : Nat → Rat

/-- Fixed all-zero random source, used for concrete evaluations. -/
def gZero : RandGen := ⟨fun _ => 0, fun _ => 0⟩

/-- `d.get(key)` on a Python dict: first binding of `key`, if any. -/
def dictGet : List (String × PyVal) → String → Option PyVal
  | [], _ => Option.none
  | (k, v) :: rest, key => if k = key then some v else dictGet rest key

/-- `d.get(key, dflt)` on a Python dict. -/
def dictGetD (d : List (String × PyVal)) (key : String) (dflt : PyVal) : PyVal :=
  (dictGet d key).getD dflt

/-- `key in d` on a Python dict. -/
def hasKey (d : List (String × PyVal)) (key : String) : Bool :=
  (dictGet d key).isSome

/-- Python treats `bool` as an `int` subtype in arithmetic and comparisons;
this coercion normalises `True`/`False` to `1`/`0` before arithmetic. -/
def PyVal.coerceBool : PyVal → PyVal
  | .bool b => .int (cond b 1 0)
  | v => v

/-- Python truthiness (`if v:`): zero numbers, empty containers, empty
strings, `False` and `None` are falsy. -/
def pyFalsy : PyVal → Bool
  | .none => true
  | .bool b => !b
  | .int n => n == 0
  | .float q => q == 0
  | .str s => s.isEmpty
  | .arr l => l.isEmpty
  | .dict d => d.isEmpty

def pyTruthy (v : PyVal) : Bool := !pyFalsy v

/-- `v is None`. -/
def PyVal.isNone : PyVal → Bool
  | .none => true
  | _ => false

/-- The value is an `int` or `float` (the sense in which the claims say
"numeric argument"; excludes `bool`). -/
def PyVal.isNum : PyVal → Bool
  | .int _ => true
  | .float _ => true
  | _ => false

/-- Numeric value of a number-like `PyVal` (0 on non-numbers; only ever
used under an `isNum`-style guard). -/
def PyVal.numVal : PyVal → Rat
  | .int n => n
  | .float q => q
  | .bool b => cond b 1 0
  | _ => 0

/-- Number-like view used where Python would coerce to a number
(`random.uniform` operands); `bool` counts, as in Python. -/
def PyVal.asRat? : PyVal → Option Rat
  | .int n => some n
  | .float q => some q
  | .bool b => some (cond b 1 0)
  | _ => Option.none

/-- Integer view for `range(count)` / `random.sample(_, count)`: Python
accepts `int` (and `bool`) there and raises `TypeError` on `float`.
A negative value yields an empty `range`, hence `toNat`. -/
def PyVal.asRangeLen? : PyVal → Option Nat
  | .int n => some n.toNat
  | .bool b => some (cond b 1 0)
  | _ => Option.none

/-- Integer view keeping the sign, for the internal guard of `random.sample`. -/
def PyVal.asInt? : PyVal → Option Int
  | .int n => some n
  | .bool b => some (cond b 1 0)
  | _ => Option.none

/-- Python `+` on the values this repository can reach: numbers add
(`int` stays `int`), strings and lists concatenate; anything else is a
`TypeError` (`Option.none`). -/
def pyAddCore : PyVal → PyVal → Option PyVal
  | .int m, .int n => some (.int (m + n))
  | .int m, .float q => some (.float ((m : Rat) + q))
  | .float q, .int n => some (.float (q + (n : Rat)))
  | .float p, .float q => some (.float (p + q))
  | .str s, .str t => some (.str (s ++ t))
  | .arr xs, .arr ys => some (.arr (xs ++ ys))
  | _, _ => Option.none

def pyAdd (a b : PyVal) : Option PyVal := pyAddCore a.coerceBool b.coerceBool

/-- Python `-`: numbers only. -/
def pySubCore : PyVal → PyVal → Option PyVal
  | .int m, .int n => some (.int (m - n))
  | .int m, .float q => some (.float ((m : Rat) - q))
  | .float q, .int n => some (.float (q - (n : Rat)))
  | .float p, .float q => some (.float (p - q))
  | _, _ => Option.none

def pySub (a b : PyVal) : Option PyVal := pySubCore a.coerceBool b.coerceBool

/-- Python `*`: numbers multiply, a string or list times an `int` is
repetition. -/
def pyMulCore : PyVal → PyVal → Option PyVal
  | .int m, .int n => some (.int (m * n))
  | .int m, .float q => some (.float ((m : Rat) * q))
  | .float q, .int n => some (.float (q * (n : Rat)))
  | .float p, .float q => some (.float (p * q))
  | .str s, .int n => some (.str (String.join (List.replicate n.toNat s)))
  | .int n, .str s => some (.str (String.join (List.replicate n.toNat s)))
  | .arr l, .int n => some (.arr (List.flatten (List.replicate n.toNat l)))
  | .int n, .arr l => some (.arr (List.flatten (List.replicate n.toNat l)))
  | _, _ => Option.none

def pyMul (a b : PyVal) : Option PyVal := pyMulCore a.coerceBool b.coerceBool

/-- Python `/`: true division, always a `float`; division by zero or a
non-number operand is an exception (`Option.none`). -/
def pyDivCore : PyVal → PyVal → Option PyVal
  | .int m, .int n => if n = 0 then Option.none else some (.float ((m : Rat) / (n : Rat)))
  | .int m, .float q => if q = 0 then Option.none else some (.float ((m : Rat) / q))
  | .float q, .int n => if n = 0 then Option.none else some (.float (q / (n : Rat)))
  | .float p, .float q => if q = 0 then Option.none else some (.float (p / q))
  | _, _ => Option.none

def pyDiv (a b : PyVal) : Option PyVal := pyDivCore a.coerceBool b.coerceBool

/-- Python `==` against an integer literal (used for `b == 0` and
`count == 1`): numeric cross-type equality, `False` for non-numbers. -/
def pyEqInt (v : PyVal) (n : Int) : Bool :=
  match v.coerceBool with
  | .int m => m == n
  | .float q => q == (n : Rat)
  | _ => false

/-- Python `>` as used by the handlers: defined on number/number (with
bools as ints) and string/string pairs; every other pair is a `TypeError`
(`Option.none`). -/
def pyCmpGt (a b : PyVal) : Option Bool :=
  match a.coerceBool, b.coerceBool with
  | .int m, .int n => some (decide (n < m))
  | .int m, .float q => some (decide (q < (m : Rat)))
  | .float q, .int n => some (decide ((n : Rat) < q))
  | .float p, .float q => some (decide (q < p))
  | .str s, .str t => some (decide (t < s))
  | _, _ => Option.none

/-- Python `<`, same scope as `pyCmpGt`. -/
def pyCmpLt (a b : PyVal) : Option Bool := pyCmpGt b a

/-- `len(v)` for the sized values reachable here. -/
def pyLen : PyVal → Option Nat
  | .arr l => some l.length
  | .str s => some s.length
  | .dict d => some d.length
  | _ => Option.none

/-- Decimal digits of the fraction `rem / den` (with `rem < den`), up to
`fuel` digits; models the fractional part of Python float formatting by
long division. -/
def fracDigits : Nat → Nat → Nat → String
  | 0, _, _ => ""
  | fuel + 1, rem, den =>
    if rem = 0 then ""
    else
      (Nat.digitChar (rem * 10 / den)).toString ++ fracDigits fuel (rem * 10 % den) den

/-- Python `str()` of a float: sign, integer part, then either `".0"` or
the fractional digits.  Exact for every float whose decimal expansion
terminates within 17 digits. -/
def floatStr (q : Rat) : String :=
  let sign := if q.num < 0 then "-" else ""
  let n := q.num.natAbs
  let ip := n / q.den
  let rem := n % q.den
  sign ++ toString ip ++ "." ++ (if rem = 0 then "0" else fracDigits 17 rem q.den)

mutual

/-- Python `repr()`: the rendering used for values nested inside
containers (strings quoted). -/
def pyRepr : PyVal → String
  | .int n => toString n
  | .float q => floatStr q
  | .str s => "\x27" ++ s ++ "\x27"
  | .bool b => cond b "True" "False"
  | .none => "None"
  | .arr l => "[" ++ pyReprJoin l ++ "]"
  | .dict d => "\x7b" ++ pyReprJoinDict d ++ "\x7d"

def pyReprJoin : List PyVal → String
  | [] => ""
  | [x] => pyRepr x
  | x :: y :: rest => pyRepr x ++ ", " ++ pyReprJoin (y :: rest)

def pyReprJoinDict : List (String × PyVal) → String
  | [] => ""
  | [(k, v)] => "\x27" ++ k ++ "\x27: " ++ pyRepr v
  | (k, v) :: p :: rest => "\x27" ++ k ++ "\x27: " ++ pyRepr v ++ ", " ++ pyReprJoinDict (p :: rest)

end

/-- Python `str()`, the f-string rendering: like `repr` except that a
top-level string is taken verbatim. -/
def pyStr : PyVal → String
  | .str s => s
  | v => pyRepr v

mutual

/-- `json.dumps` with its default separators. -/
def jsonDumps : PyVal → String
  | .int n => toString n
  | .float q => floatStr q
  | .str s => "\"" ++ s ++ "\""
  | .bool b => cond b "true" "false"
  | .none => "null"
  | .arr l => "[" ++ jsonDumpsJoin l ++ "]"
  | .dict d => "\x7b" ++ jsonDumpsJoinDict d ++ "\x7d"

def jsonDumpsJoin : List PyVal → String
  | [] => ""
  | [x] => jsonDumps x
  | x :: y :: rest => jsonDumps x ++ ", " ++ jsonDumpsJoin (y :: rest)

def jsonDumpsJoinDict : List (String × PyVal) → String
  | [] => ""
  | [(k, v)] => "\"" ++ k ++ "\": " ++ jsonDumps v
  | (k, v) :: p :: rest => "\"" ++ k ++ "\": " ++ jsonDumps v ++ ", " ++ jsonDumpsJoinDict (p :: rest)

end

/-- `random.uniform(a, b) = a + (b-a) * random.random()`. -/
def uniform (a b r : Rat) : Rat := a + (b - a) * r

/-- `[random.uniform(mn, mx) for _ in range(count)]`, in draw order. -/
def uniformList (g : RandGen) (count : Nat) (mn mx : Rat) : List Rat :=
  (List.range count).map (fun t => uniform mn mx (g.real t))

/-- The t-th `random.choice(v)` draw: an element of a non-empty sequence
at the oracle-selected index; `IndexError`/`TypeError` is `Option.none`. -/
def pyChoiceAt (g : RandGen) (t : Nat) (v : PyVal) : Option PyVal :=
  match v with
  | .arr l =>
    if h : 0 < l.length then some (l.get ⟨g.nat t % l.length, Nat.mod_lt _ h⟩)
    else Option.none
  | .str s =>
    let cs := s.toList
    if h : 0 < cs.length then some (.str (String.mk [cs.get ⟨g.nat t % cs.length, Nat.mod_lt _ h⟩]))
    else Option.none
  | _ => Option.none

/-- `[random.choice(v) for _ in range(k)]`. -/
def pyChoiceList (g : RandGen) (k : Nat) (v : PyVal) : Option (List PyVal) :=
  (List.range k).mapM (fun t => pyChoiceAt g t v)

/-- Sampling without replacement: each draw removes the selected position
from the pool, so positions are pairwise distinct.  This is the semantic
content of `random.sample(pool, k)` for `k ≤ len(pool)`. -/
def sampleGo (gnat : Nat → Nat) : Nat → List PyVal → Nat → List PyVal
  | 0, _, _ => []
  | k + 1, pool, t =>
    if h : 0 < pool.length then
      pool.get ⟨gnat t % pool.length, Nat.mod_lt _ h⟩ ::
        sampleGo gnat k (pool.eraseIdx (gnat t % pool.length)) (t + 1)
    else []

/-- `random.sample(pool, k)`. -/
def pySample (g : RandGen) (pool : List PyVal) (k : Nat) : List PyVal :=
  sampleGo g.nat k pool 0

/-- A tool descriptor as constructed by the two stdio bindings
(`mcp.types.Tool(name=..., description=..., inputSchema=...)`). -/
structure McpTool where
  name : String
  description : String
  inputSchema : PyVal

/-- `handle_list_tools` of `seans_tools_mcp_server.py` (local binding),
transcribed literally. -/
def localTools : List McpTool :=
  [ { name := "get_random_number",
      description := "Generate a random number within a specified range",
      inputSchema := .dict
        [ ("type", .str "object"),
          ("properties", .dict
            [ ("min", .dict
                [ ("type", .str "number"),
                  ("description", .str "Minimum value (default: 0)"),
                  ("default", .int 0) ]),
              ("max", .dict
                [ ("type", .str "number"),
                  ("description", .str "Maximum value (default: 100)"),
                  ("default", .int 100) ]) ]),
          ("additionalProperties", .bool false) ] },
    { name := "get_random_number_list",
      description := "Generate a list of random numbers",
      inputSchema := .dict
        [ ("type", .str "object"),
          ("properties", .dict
            [ ("count", .dict
                [ ("type", .str "integer"),
                  ("description", .str "Number of random numbers to generate (default: 5)"),
                  ("default", .int 5),
                  ("minimum", .int 1),
                  ("maximum", .int 1000) ]),
              ("min", .dict
                [ ("type", .str "number"),
                  ("description", .str "Minimum value for each number (default: 0)"),
                  ("default", .int 0) ]),
              ("max", .dict
                [ ("type", .str "number"),
                  ("description", .str "Maximum value for each number (default: 100)"),
                  ("default", .int 100) ]) ]),
          ("additionalProperties", .bool false) ] },
    { name := "get_random_choice",
      description := "Pick random item(s) from a provided list of choices",
      inputSchema := .dict
        [ ("type", .str "object"),
          ("properties", .dict
            [ ("choices", .dict
                [ ("type", .str "array"),
                  ("description", .str "List of items to choose from"),
                  ("items", .dict
                    [ ("type", .arr [.str "string", .str "number", .str "boolean"]) ]),
                  ("minItems", .int 1) ]),
              ("count", .dict
                [ ("type", .str "integer"),
                  ("description", .str "Number of items to select (default: 1)"),
                  ("default", .int 1),
                  ("minimum", .int 1) ]),
              ("allow_duplicates", .dict
                [ ("type", .str "boolean"),
                  ("description", .str "Allow selecting the same item multiple times (default: false)"),
                  ("default", .bool false) ]) ]),
          ("required", .arr [.str "choices"]),
          ("additionalProperties", .bool false) ] },
    { name := "math_add",
      description := "Add two numbers together",
      inputSchema := .dict
        [ ("type", .str "object"),
          ("properties", .dict
            [ ("a", .dict
                [ ("type", .str "number"),
                  ("description", .str "First number") ]),
              ("b", .dict
                [ ("type", .str "number"),
                  ("description", .str "Second number") ]) ]),
          ("required", .arr [.str "a", .str "b"]),
          ("additionalProperties", .bool false) ] },
    { name := "math_subtract",
      description := "Subtract second number from first number",
      inputSchema := .dict
        [ ("type", .str "object"),
          ("properties", .dict
            [ ("a", .dict
                [ ("type", .str "number"),
                  ("description", .str "First number (minuend)") ]),
              ("b", .dict
                [ ("type", .str "number"),
                  ("description", .str "Second number (subtrahend)") ]) ]),
          ("required", .arr [.str "a", .str "b"]),
          ("additionalProperties", .bool false) ] },
    { name := "math_multiply",
      description := "Multiply two numbers together",
      inputSchema := .dict
        [ ("type", .str "object"),
          ("properties", .dict
            [ ("a", .dict
                [ ("type", .str "number"),
                  ("description", .str "First number") ]),
              ("b", .dict
                [ ("type", .str "number"),
                  ("description", .str "Second number") ]) ]),
          ("required", .arr [.str "a", .str "b"]),
          ("additionalProperties", .bool false) ] },
    { name := "math_divide",
      description := "Divide first number by second number",
      inputSchema := .dict
        [ ("type", .str "object"),
          ("properties", .dict
            [ ("a", .dict
                [ ("type", .str "number"),
                  ("description", .str "Dividend (number to be divided)") ]),
              ("b", .dict
                [ ("type", .str "number"),
                  ("description", .str "Divisor (number to divide by)") ]) ]),
          ("required", .arr [.str "a", .str "b"]),
          ("additionalProperties", .bool false) ] } ]

/-- `handle_list_tools` of `cloud_mcp_proxy.py` (remote-proxy binding),
transcribed literally and independently of `localTools`. -/
def proxyTools : List McpTool :=
  [ { name := "get_random_number",
      description := "Generate a random number within a specified range (Cloud)",
      inputSchema := .dict
        [ ("type", .str "object"),
          ("properties", .dict
            [ ("min", .dict
                [ ("type", .str "number"),
                  ("description", .str "Minimum value (default: 0)"),
                  ("default", .int 0) ]),
              ("max", .dict
                [ ("type", .str "number"),
                  ("description", .str "Maximum value (default: 100)"),
                  ("default", .int 100) ]) ]),
          ("additionalProperties", .bool false) ] },
    { name := "get_random_number_list",
      description := "Generate a list of random numbers (Cloud)",
      inputSchema := .dict
        [ ("type", .str "object"),
          ("properties", .dict
            [ ("count", .dict
                [ ("type", .str "integer"),
                  ("description", .str "Number of random numbers to generate (default: 5)"),
                  ("default", .int 5),
                  ("minimum", .int 1),
                  ("maximum", .int 1000) ]),
              ("min", .dict
                [ ("type", .str "number"),
                  ("description", .str "Minimum value for each number (default: 0)"),
                  ("default", .int 0) ]),
              ("max", .dict
                [ ("type", .str "number"),
                  ("description", .str "Maximum value for each number (default: 100)"),
                  ("default", .int 100) ]) ]),
          ("additionalProperties", .bool false) ] },
    { name := "get_random_choice",
      description := "Pick random item(s) from a provided list of choices (Cloud)",
      inputSchema := .dict
        [ ("type", .str "object"),
          ("properties", .dict
            [ ("choices", .dict
                [ ("type", .str "array"),
                  ("description", .str "List of items to choose from"),
                  ("items", .dict
                    [ ("type", .arr [.str "string", .str "number", .str "boolean"]) ]),
                  ("minItems", .int 1) ]),
              ("count", .dict
                [ ("type", .str "integer"),
                  ("description", .str "Number of items to select (default: 1)"),
                  ("default", .int 1),
                  ("minimum", .int 1) ]),
              ("allow_duplicates", .dict
                [ ("type", .str "boolean"),
                  ("description", .str "Allow selecting the same item multiple times (default: false)"),
                  ("default", .bool false) ]) ]),
          ("required", .arr [.str "choices"]),
          ("additionalProperties", .bool false) ] },
    { name := "math_add",
      description := "Add two numbers together (Cloud)",
      inputSchema := .dict
        [ ("type", .str "object"),
          ("properties", .dict
            [ ("a", .dict
                [ ("type", .str "number"),
                  ("description", .str "First number") ]),
              ("b", .dict
                [ ("type", .str "number"),
                  ("description", .str "Second number") ]) ]),
          ("required", .arr [.str "a", .str "b"]),
          ("additionalProperties", .bool false) ] },
    { name := "math_subtract",
      description := "Subtract second number from first number (Cloud)",
      inputSchema := .dict
        [ ("type", .str "object"),
          ("properties", .dict
            [ ("a", .dict
                [ ("type", .str "number"),
                  ("description", .str "First number (minuend)") ]),
              ("b", .dict
                [ ("type", .str "number"),
                  ("description", .str "Second number (subtrahend)") ]) ]),
          ("required", .arr [.str "a", .str "b"]),
          ("additionalProperties", .bool false) ] },
    { name := "math_multiply",
      description := "Multiply two numbers together (Cloud)",
      inputSchema := .dict
        [ ("type", .str "object"),
          ("properties", .dict
            [ ("a", .dict
                [ ("type", .str "number"),
                  ("description", .str "First number") ]),
              ("b", .dict
                [ ("type", .str "number"),
                  ("description", .str "Second number") ]) ]),
          ("required", .arr [.str "a", .str "b"]),
          ("additionalProperties", .bool false) ] },
    { name := "math_divide",
      description := "Divide first number by second number (Cloud)",
      inputSchema := .dict
        [ ("type", .str "object"),
          ("properties", .dict
            [ ("a", .dict
                [ ("type", .str "number"),
                  ("description", .str "Dividend (number to be divided)") ]),
              ("b", .dict
                [ ("type", .str "number"),
                  ("description", .str "Divisor (number to divide by)") ]) ]),
          ("required", .arr [.str "a", .str "b"]),
          ("additionalProperties", .bool false) ] } ]

/-- First descriptor with the given name, as a client keying the catalog
by tool name would see it. -/
def findTool (ts : List McpTool) (n : String) : Option McpTool :=
  ts.find? (fun t => t.name == n)

/-- The `get_random_number` branch of the local `handle_call_tool`.
`arguments.get("min", 0) if arguments else 0` coincides with looking the
key up in `arguments or \x7b\x7d`, which is how the absent/empty dict is
passed in here. -/
def localRandomNumber (g : RandGen) (args : List (String × PyVal)) :
    Except String (List ContentItem) :=
  let mn := dictGetD args "min" (.int 0)
  let mx := dictGetD args "max" (.int 100)
  match pyCmpGt mn mx with
  | Option.none => .error "TypeError: unorderable operands"
  | some true =>
    .ok [.text ("Error: min value (" ++ pyStr mn ++
      ") cannot be greater than max value (" ++ pyStr mx ++ ")")]
  | some false =>
    match mn.asRat?, mx.asRat? with
    | some a, some b =>
      .ok [.text ("Random number: " ++ floatStr (uniform a b (g.real 0)))]
    | _, _ => .error "TypeError: uniform expects numbers"

/-- The `get_random_number_list` branch of the local `handle_call_tool`. -/
def localRandomNumberList (g : RandGen) (args : List (String × PyVal)) :
    Except String (List ContentItem) :=
  let count := dictGetD args "count" (.int 5)
  let mn := dictGetD args "min" (.int 0)
  let mx := dictGetD args "max" (.int 100)
  match pyCmpGt mn mx with
  | Option.none => .error "TypeError: unorderable operands"
  | some true =>
    .ok [.text ("Error: min value (" ++ pyStr mn ++
      ") cannot be greater than max value (" ++ pyStr mx ++ ")")]
  | some false =>
    match pyCmpLt count (.int 1), pyCmpGt count (.int 1000) with
    | some lo, some hi =>
      if lo || hi then
        .ok [.text ("Error: count must be between 1 and 1000, got " ++ pyStr count)]
      else
        match count.asRangeLen?, mn.asRat?, mx.asRat? with
        | some k, some a, some b =>
          .ok [.text ("Random numbers: " ++
            pyStr (.arr ((uniformList g k a b).map PyVal.float)))]
        | _, _, _ => .error "TypeError: range or uniform expects numbers"
    | _, _ => .error "TypeError: unorderable operands"

/-- The `get_random_choice` branch of the local `handle_call_tool`;
`args?` is `None` when the call carried no arguments at all. -/
def localRandomChoice (g : RandGen) (args? : Option (List (String × PyVal))) :
    Except String (List ContentItem) :=
  match args? with
  | Option.none => .ok [.text "Error: \x27choices\x27 parameter is required"]
  | some args =>
    if args.isEmpty || !hasKey args "choices" then
      .ok [.text "Error: \x27choices\x27 parameter is required"]
    else
      let choices := dictGetD args "choices" .none
      let count := dictGetD args "count" (.int 1)
      let allow := dictGetD args "allow_duplicates" (.bool false)
      if pyFalsy choices then
        .ok [.text "Error: choices list cannot be empty"]
      else
        match pyLen choices with
        | Option.none => .error "TypeError: object of this type has no len"
        | some n =>
          match pyCmpGt count (.int (n : Int)) with
          | Option.none => .error "TypeError: unorderable operands"
          | some gtLen =>
            if gtLen && pyFalsy allow then
              .ok [.text ("Error: cannot select " ++ pyStr count ++
                " unique items from " ++ toString n ++
                " choices. Set allow_duplicates=true or reduce count.")]
            else if pyEqInt count 1 then
              match pyChoiceAt g 0 choices with
              | some v => .ok [.text ("Random choice: " ++ pyStr v)]
              | Option.none => .error "TypeError: choice expects a sequence"
            else if pyTruthy allow then
              match count.asRangeLen? with
              | some k =>
                match pyChoiceList g k choices with
                | some l => .ok [.text ("Random choices: " ++ pyStr (.arr l))]
                | Option.none => .error "TypeError: choice expects a sequence"
              | Option.none => .error "TypeError: range expects an integer"
            else
              match choices, count.asInt? with
              | .arr pool, some k =>
                if k < 0 || (pool.length : Int) < k then
                  .error "ValueError: Sample larger than population or is negative"
                else
                  .ok [.text ("Random choices: " ++ pyStr (.arr (pySample g pool k.toNat)))]
              | _, _ => .error "TypeError: sample expects a sequence and an integer"

/-- One arithmetic branch of the local `handle_call_tool`: require both
operands, apply the Python operator, format `f-string` output;  `sep` is
the blank-padded operator symbol of the branch. -/
def localMathBranch (op : PyVal → PyVal → Option PyVal) (sep : String)
    (args? : Option (List (String × PyVal))) : Except String (List ContentItem) :=
  match args? with
  | Option.none => .ok [.text "Error: Both \x27a\x27 and \x27b\x27 parameters are required"]
  | some args =>
    if args.isEmpty || !hasKey args "a" || !hasKey args "b" then
      .ok [.text "Error: Both \x27a\x27 and \x27b\x27 parameters are required"]
    else
      let a := dictGetD args "a" .none
      let b := dictGetD args "b" .none
      match op a b with
      | some r => .ok [.text (pyStr a ++ sep ++ pyStr b ++ " = " ++ pyStr r)]
      | Option.none => .error "TypeError: unsupported operand types"

/-- The `math_divide` branch: like the other arithmetic branches but with
the explicit `b == 0` guard of the source. -/
def localMathDivide (args? : Option (List (String × PyVal))) :
    Except String (List ContentItem) :=
  match args? with
  | Option.none => .ok [.text "Error: Both \x27a\x27 and \x27b\x27 parameters are required"]
  | some args =>
    if args.isEmpty || !hasKey args "a" || !hasKey args "b" then
      .ok [.text "Error: Both \x27a\x27 and \x27b\x27 parameters are required"]
    else
      let a := dictGetD args "a" .none
      let b := dictGetD args "b" .none
      if pyEqInt b 0 then
        .ok [.text "Error: Division by zero is not allowed"]
      else
        match pyDiv a b with
        | some r => .ok [.text (pyStr a ++ " ÷ " ++ pyStr b ++ " = " ++ pyStr r)]
        | Option.none => .error "TypeError: unsupported operand types"

/-- `handle_call_tool` of `seans_tools_mcp_server.py`: the local binding
executes the named tool in-process and returns a list of text content
items; the only failure mode that escapes to the MCP framework is an
uncaught exception (`Except.error`).  The multiplication symbol is
`×` and the division symbol `÷`, as in the source. -/
def localCallTool (g : RandGen) (name : String)
    (args? : Option (List (String × PyVal))) : Except String (List ContentItem) :=
  if name = "get_random_number" then
    localRandomNumber g (args?.getD [])
  else if name = "get_random_number_list" then
    localRandomNumberList g (args?.getD [])
  else if name = "get_random_choice" then
    localRandomChoice g args?
  else if name = "math_add" then
    localMathBranch pyAdd " + " args?
  else if name = "math_subtract" then
    localMathBranch pySub " - " args?
  else if name = "math_multiply" then
    localMathBranch pyMul " × " args?
  else if name = "math_divide" then
    localMathDivide args?
  else
    .ok [.text ("Unknown tool: " ++ name)]

/-- `call_tool` branch `get_random_number` of the cloud
`mcp_server.py`: identical computation to the local binding but failures
are raised (`ValueError`), not returned as text. -/
def cloudRandomNumber (g : RandGen) (args : List (String × PyVal)) :
    Except String (List ContentItem) :=
  let mn := dictGetD args "min" (.int 0)
  let mx := dictGetD args "max" (.int 100)
  match pyCmpGt mn mx with
  | Option.none => .error "TypeError: unorderable operands"
  | some true =>
    .error ("min value (" ++ pyStr mn ++ ") cannot be greater than max value (" ++
      pyStr mx ++ ")")
  | some false =>
    match mn.asRat?, mx.asRat? with
    | some a, some b =>
      .ok [.text ("Random number: " ++ floatStr (uniform a b (g.real 0)))]
    | _, _ => .error "TypeError: uniform expects numbers"

/-- `call_tool` branch `get_random_number_list` of the cloud server. -/
def cloudRandomNumberList (g : RandGen) (args : List (String × PyVal)) :
    Except String (List ContentItem) :=
  let count := dictGetD args "count" (.int 5)
  let mn := dictGetD args "min" (.int 0)
  let mx := dictGetD args "max" (.int 100)
  match pyCmpGt mn mx with
  | Option.none => .error "TypeError: unorderable operands"
  | some true =>
    .error ("min value (" ++ pyStr mn ++ ") cannot be greater than max value (" ++
      pyStr mx ++ ")")
  | some false =>
    match pyCmpLt count (.int 1), pyCmpGt count (.int 1000) with
    | some lo, some hi =>
      if lo || hi then
        .error ("count must be between 1 and 1000, got " ++ pyStr count)
      else
        match count.asRangeLen?, mn.asRat?, mx.asRat? with
        | some k, some a, some b =>
          .ok [.text ("Random numbers: " ++
            pyStr (.arr ((uniformList g k a b).map PyVal.float)))]
        | _, _, _ => .error "TypeError: range or uniform expects numbers"
    | _, _ => .error "TypeError: unorderable operands"

/-- `call_tool` branch `get_random_choice` of the cloud server.  Unlike
the local binding, absence and emptiness of `choices` are reported by a
single merged `ValueError`. -/
def cloudRandomChoice (g : RandGen) (args : List (String × PyVal)) :
    Except String (List ContentItem) :=
  let choices := dictGetD args "choices" .none
  let count := dictGetD args "count" (.int 1)
  let allow := dictGetD args "allow_duplicates" (.bool false)
  if pyFalsy choices then
    .error "choices parameter is required and cannot be empty"
  else
    match pyLen choices with
    | Option.none => .error "TypeError: object of this type has no len"
    | some n =>
      match pyCmpGt count (.int (n : Int)) with
      | Option.none => .error "TypeError: unorderable operands"
      | some gtLen =>
        if gtLen && pyFalsy allow then
          .error ("cannot select " ++ pyStr count ++ " unique items from " ++
            toString n ++ " choices. Set allow_duplicates=true or reduce count.")
        else if pyEqInt count 1 then
          match pyChoiceAt g 0 choices with
          | some v => .ok [.text ("Random choice: " ++ pyStr v)]
          | Option.none => .error "TypeError: choice expects a sequence"
        else if pyTruthy allow then
          match count.asRangeLen? with
          | some k =>
            match pyChoiceList g k choices with
            | some l => .ok [.text ("Random choices: " ++ pyStr (.arr l))]
            | Option.none => .error "TypeError: choice expects a sequence"
          | Option.none => .error "TypeError: range expects an integer"
        else
          match choices, count.asInt? with
          | .arr pool, some k =>
            if k < 0 || (pool.length : Int) < k then
              .error "ValueError: Sample larger than population or is negative"
            else
              .ok [.text ("Random choices: " ++ pyStr (.arr (pySample g pool k.toNat)))]
          | _, _ => .error "TypeError: sample expects a sequence and an integer"

/-- One arithmetic branch of the cloud `call_tool`:
`arguments.get` yields `None` for an absent operand, the `a is None or
b is None` guard raises, then the operator is applied and formatted. -/
def cloudMathBranch (op : PyVal → PyVal → Option PyVal) (sep : String)
    (args : List (String × PyVal)) : Except String (List ContentItem) :=
  let a := dictGetD args "a" .none
  let b := dictGetD args "b" .none
  if a.isNone || b.isNone then
    .error "Both \x27a\x27 and \x27b\x27 parameters are required"
  else
    match op a b with
    | some r => .ok [.text (pyStr a ++ sep ++ pyStr b ++ " = " ++ pyStr r)]
    | Option.none => .error "TypeError: unsupported operand types"

/-- The cloud `math_divide` branch with its `b == 0` guard. -/
def cloudMathDivide (args : List (String × PyVal)) :
    Except String (List ContentItem) :=
  let a := dictGetD args "a" .none
  let b := dictGetD args "b" .none
  if a.isNone || b.isNone then
    .error "Both \x27a\x27 and \x27b\x27 parameters are required"
  else if pyEqInt b 0 then
    .error "Division by zero is not allowed"
  else
    match pyDiv a b with
    | some r => .ok [.text (pyStr a ++ " รท " ++ pyStr b ++ " = " ++ pyStr r)]
    | Option.none => .error "TypeError: unsupported operand types"

/-- `call_tool` of the cloud `mcp_server.py`, dispatching on a tool name
that is already a string.  The source file carries mojibake where the
local binding has `×` and `÷`: its multiplication symbol is the two code
points U+0E23 U+0097 and its division symbol is U+0E23 U+0E17 (the UTF-8
bytes of `×` and `÷` decoded as cp874), and the embedding reproduces the
file as it stands. -/
def cloudCallToolNamed (g : RandGen) (s : String) (args : List (String × PyVal)) :
    Except String (List ContentItem) :=
  if s = "get_random_number" then cloudRandomNumber g args
  else if s = "get_random_number_list" then cloudRandomNumberList g args
  else if s = "get_random_choice" then cloudRandomChoice g args
  else if s = "math_add" then cloudMathBranch pyAdd " + " args
  else if s = "math_subtract" then cloudMathBranch pySub " - " args
  else if s = "math_multiply" then cloudMathBranch pyMul " ร\u0097 " args
  else if s = "math_divide" then cloudMathDivide args
  else .error ("Unknown tool: " ++ s)

/-- `call_tool` of the cloud `mcp_server.py` on the raw `params` values:
a non-string name matches no branch and raises `Unknown tool`, non-dict
arguments would raise on the first `.get`. -/
def cloudCallTool (g : RandGen) (name : PyVal) (args : PyVal) :
    Except String (List ContentItem) :=
  match name with
  | .str s =>
    match args with
    | .dict d => cloudCallToolNamed g s d
    | _ => .error "AttributeError: arguments have no attribute get"
  | v => .error ("Unknown tool: " ++ pyStr v)

/-- `list_tools()` of the cloud `mcp_server.py`: the JSON value
`\x7b"tools": [...]\x7d`, transcribed literally. -/
def cloudListTools : PyVal :=
  .dict [("tools", .arr
    [ .dict
        [ ("name", .str "get_random_number"),
          ("description", .str "Generate a random number within a specified range"),
          ("inputSchema", .dict
            [ ("type", .str "object"),
              ("properties", .dict
                [ ("min", .dict [("type", .str "number"), ("description", .str "Minimum value (default: 0)"), ("default", .int 0)]),
                  ("max", .dict [("type", .str "number"), ("description", .str "Maximum value (default: 100)"), ("default", .int 100)]) ]),
              ("additionalProperties", .bool false) ]) ],
      .dict
        [ ("name", .str "get_random_number_list"),
          ("description", .str "Generate a list of random numbers"),
          ("inputSchema", .dict
            [ ("type", .str "object"),
              ("properties", .dict
                [ ("count", .dict [("type", .str "integer"), ("description", .str "Number of random numbers to generate (default: 5)"), ("default", .int 5), ("minimum", .int 1), ("maximum", .int 1000)]),
                  ("min", .dict [("type", .str "number"), ("description", .str "Minimum value for each number (default: 0)"), ("default", .int 0)]),
                  ("max", .dict [("type", .str "number"), ("description", .str "Maximum value for each number (default: 100)"), ("default", .int 100)]) ]),
              ("additionalProperties", .bool false) ]) ],
      .dict
        [ ("name", .str "get_random_choice"),
          ("description", .str "Pick random item(s) from a provided list of choices"),
          ("inputSchema", .dict
            [ ("type", .str "object"),
              ("properties", .dict
                [ ("choices", .dict [("type", .str "array"), ("description", .str "List of items to choose from"), ("items", .dict [("type", .arr [.str "string", .str "number", .str "boolean"])]), ("minItems", .int 1)]),
                  ("count", .dict [("type", .str "integer"), ("description", .str "Number of items to select (default: 1)"), ("default", .int 1), ("minimum", .int 1)]),
                  ("allow_duplicates", .dict [("type", .str "boolean"), ("description", .str "Allow selecting the same item multiple times (default: false)"), ("default", .bool false)]) ]),
              ("required", .arr [.str "choices"]),
              ("additionalProperties", .bool false) ]) ],
      .dict
        [ ("name", .str "math_add"),
          ("description", .str "Add two numbers together"),
          ("inputSchema", .dict
            [ ("type", .str "object"),
              ("properties", .dict
                [ ("a", .dict [("type", .str "number"), ("description", .str "First number")]),
                  ("b", .dict [("type", .str "number"), ("description", .str "Second number")]) ]),
              ("required", .arr [.str "a", .str "b"]),
              ("additionalProperties", .bool false) ]) ],
      .dict
        [ ("name", .str "math_subtract"),
          ("description", .str "Subtract second number from first number"),
          ("inputSchema", .dict
            [ ("type", .str "object"),
              ("properties", .dict
                [ ("a", .dict [("type", .str "number"), ("description", .str "First number (minuend)")]),
                  ("b", .dict [("type", .str "number"), ("description", .str "Second number (subtrahend)")]) ]),
              ("required", .arr [.str "a", .str "b"]),
              ("additionalProperties", .bool false) ]) ],
      .dict
        [ ("name", .str "math_multiply"),
          ("description", .str "Multiply two numbers together"),
          ("inputSchema", .dict
            [ ("type", .str "object"),
              ("properties", .dict
                [ ("a", .dict [("type", .str "number"), ("description", .str "First number")]),
                  ("b", .dict [("type", .str "number"), ("description", .str "Second number")]) ]),
              ("required", .arr [.str "a", .str "b"]),
              ("additionalProperties", .bool false) ]) ],
      .dict
        [ ("name", .str "math_divide"),
          ("description", .str "Divide first number by second number"),
          ("inputSchema", .dict
            [ ("type", .str "object"),
              ("properties", .dict
                [ ("a", .dict [("type", .str "number"), ("description", .str "Dividend (number to be divided)")]),
                  ("b", .dict [("type", .str "number"), ("description", .str "Divisor (number to divide by)")]) ]),
              ("required", .arr [.str "a", .str "b"]),
              ("additionalProperties", .bool false) ]) ] ] )]

/-- HTTP-level response of the Lambda MCP server.  `body` keeps the
JSON-RPC payload structured (the source serialises it with `json.dumps`);
`Option.none` is the literal empty body `""`. -/
structure HttpResponse where
  statusCode : Nat
  body : Option PyVal

/-- `create_mcp_response(request_id, result)` of `mcp_server.py`. -/
def createMcpResponse (requestId : PyVal) (result : PyVal) : HttpResponse :=
  { statusCode := 200,
    body := some (.dict
      [ ("jsonrpc", .str "2.0"),
        ("id", requestId),
        ("result", result) ]) }

/-- `create_mcp_error(request_id, code, message)` of `mcp_server.py`
(also an HTTP 200: MCP errors live in the JSON-RPC `error` field). -/
def createMcpError (requestId : PyVal) (code : Int) (message : String) : HttpResponse :=
  { statusCode := 200,
    body := some (.dict
      [ ("jsonrpc", .str "2.0"),
        ("id", requestId),
        ("error", .dict [("code", .int code), ("message", .str message)]) ]) }

/-- JSON-RPC error code of a response, if its body is an error envelope. -/
def HttpResponse.errorCode (r : HttpResponse) : Option Int :=
  match r.body with
  | some (.dict fields) =>
    match dictGet fields "error" with
    | some (.dict e) =>
      match dictGet e "code" with
      | some (.int c) => some c
      | _ => Option.none
    | _ => Option.none
  | _ => Option.none

/-- The `id` field of the JSON-RPC body, if present. -/
def HttpResponse.rpcId (r : HttpResponse) : Option PyVal :=
  match r.body with
  | some (.dict fields) => dictGet fields "id"
  | _ => Option.none

/-- The constant `initialize` result of the cloud server. -/
def cloudInitResult : PyVal :=
  .dict
    [ ("protocolVersion", .str "2024-11-05"),
      ("capabilities", .dict [("tools", .dict [])]),
      ("serverInfo", .dict [("name", .str "seans-tools-cloud"), ("version", .str "1.0.0")]) ]

/-- `call_tool` success payload as wrapped by the dispatcher:
`\x7b"content": [\x7b"type": "text", "text": s\x7d, ...]\x7d`. -/
def contentResult (l : List ContentItem) : PyVal :=
  .dict [("content", .arr (l.map fun c =>
    match c with
    | .text s => .dict [("type", .str "text"), ("text", .str s)]))]

/-- Input to the Lambda MCP dispatcher.  `post fields` is a request whose
JSON body parsed to the object `fields` (requests whose body is not a
JSON object are outside the scope of the claims and of this embedding);
`badJson` is a body `json.loads` rejects; `optionsPreflight` is the CORS
`OPTIONS` request. -/
inductive CloudEvent where
  | optionsPreflight
  | badJson
  | post : List (String × PyVal) → CloudEvent

/-- Python `v == s` for a string literal `s`: `True` exactly when `v` is
that string (the dispatcher compares the raw `method`/`name` values
against string literals). -/
def pyIsStr (v : PyVal) (s : String) : Bool :=
  match v with
  | .str t => t = s
  | _ => false

/-- `lambda_handler` of the cloud `mcp_server.py`.  Every `ValueError`
raised by `call_tool` is caught by the blanket `except Exception` handler,
which builds its error envelope with `request_id = None`, so the caller
id is dropped on tool-level failures. -/
def cloudLambda (g : RandGen) : CloudEvent → HttpResponse
  | .optionsPreflight => { statusCode := 200, body := Option.none }
  | .badJson => createMcpError .none (-32700) "Parse error"
  | .post fields =>
    match dictGet fields "method" with
    | Option.none => createMcpError .none (-32600) "Invalid Request"
    | some m =>
      let requestId := (dictGet fields "id").getD .none
      let params := (dictGet fields "params").getD (.dict [])
      if pyIsStr m "initialize" then
        match params with
        | .dict _ => createMcpResponse requestId cloudInitResult
        | _ => createMcpError .none (-32603) "Internal error: AttributeError"
      else if pyIsStr m "initialized" then
        { statusCode := 200, body := Option.none }
      else if pyIsStr m "tools/list" then
        createMcpResponse requestId cloudListTools
      else if pyIsStr m "tools/call" then
        match params with
        | .dict p =>
          let toolName := (dictGet p "name").getD .none
          let toolArgs := (dictGet p "arguments").getD (.dict [])
          match cloudCallTool g toolName toolArgs with
          | .ok content => createMcpResponse requestId (contentResult content)
          | .error msg => createMcpError .none (-32603) ("Internal error: " ++ msg)
        | _ => createMcpError .none (-32603) "Internal error: AttributeError"
      else
        createMcpError requestId (-32601) ("Method not found: " ++ pyStr m)

/-- The `endpoint_map` of `cloud_mcp_proxy.py`. -/
def proxyEndpointMap : List (String × String) :=
  [ ("get_random_number", "/random/number"),
    ("get_random_number_list", "/random/list"),
    ("get_random_choice", "/random/choice"),
    ("math_add", "/math/add"),
    ("math_subtract", "/math/subtract"),
    ("math_multiply", "/math/multiply"),
    ("math_divide", "/math/divide") ]

/-- Outcome of the single HTTP POST the proxy issues for one tool call.
The remote REST surface returns JSON objects, so a 200 body is modelled
as an object; a non-200 body is either JSON (an object) or raw text. -/
inductive HttpOutcome where
  | ok : List (String × PyVal) → HttpOutcome
  | errJson : Nat → List (String × PyVal) → HttpOutcome
  | errRaw : Nat → String → HttpOutcome
  | timeout : HttpOutcome
  | netError : String → HttpOutcome
  | otherError : String → HttpOutcome

/-- `handle_call_tool` of `cloud_mcp_proxy.py`: every outcome — success,
HTTP error, timeout, connection failure, unexpected exception — is
converted into a plain text content item; nothing is raised and no
JSON-RPC error object is produced. -/
def proxyCallTool (net : HttpOutcome) (name : String) : List ContentItem :=
  match dictGet (proxyEndpointMap.map fun p => (p.1, PyVal.str p.2)) name with
  | Option.none => [.text ("Unknown tool: " ++ name)]
  | some _ =>
    match net with
    | .ok body =>
      match dictGet body "expression" with
      | some e => [.text (pyStr e)]
      | Option.none =>
        match dictGet body "result" with
        | some r => [.text ("Result: " ++ pyStr r)]
        | Option.none => [.text ("Success: " ++ jsonDumps (.dict body))]
    | .errJson _ errorData =>
      [.text ("Error: " ++ pyStr (dictGetD errorData "error" (.str "Unknown error")))]
    | .errRaw _ raw => [.text ("Error: " ++ raw)]
    | .timeout => [.text "Error: Request timed out"]
    | .netError msg => [.text ("Error: Network request failed - " ++ msg)]
    | .otherError msg => [.text ("Error: " ++ msg)]

/-- Response of one REST Lambda: HTTP status plus the JSON body that
`json.dumps` would serialise. -/
structure LambdaResponse where
  statusCode : Nat
  body : PyVal

/-- A 400 response with an `error` field, as every validation failure of
the REST lambdas produces. -/
def lambdaError (msg : String) : LambdaResponse :=
  { statusCode := 400, body := .dict [("error", .str msg)] }

/-- `isinstance(v, (int, float))` — Python `bool` is a subtype of `int`
and passes this check. -/
def isinstanceNumber : PyVal → Bool
  | .int _ => true
  | .float _ => true
  | .bool _ => true
  | _ => false

/-- `isinstance(v, int)` (again including `bool`). -/
def isinstanceInt : PyVal → Bool
  | .int _ => true
  | .bool _ => true
  | _ => false

/-- `isinstance(v, list)`. -/
def isinstanceList : PyVal → Bool
  | .arr _ => true
  | _ => false

/-- `lambda_handler` of `lambda_functions/math_operations/math_add.py`
on a parsed JSON-object body: checks presence of `a` and `b`, then their
runtime number-ness, before computing; so no string-typed operand ever
reaches the addition. -/
def mathAddLambda (body : List (String × PyVal)) : LambdaResponse :=
  if !hasKey body "a" || !hasKey body "b" then
    lambdaError "Both \x27a\x27 and \x27b\x27 parameters are required"
  else
    let a := dictGetD body "a" .none
    let b := dictGetD body "b" .none
    if !isinstanceNumber a || !isinstanceNumber b then
      lambdaError "Both \x27a\x27 and \x27b\x27 must be numbers"
    else
      let r := (pyAdd a b).getD .none
      { statusCode := 200,
        body := .dict
          [ ("operation", .str "add"),
            ("a", a),
            ("b", b),
            ("result", r),
            ("expression", .str (pyStr a ++ " + " ++ pyStr b ++ " = " ++ pyStr r)) ] }

/-- `lambda_handler` of `random_operations/get_random_number.py`. -/
def randomNumberLambda (g : RandGen) (body : List (String × PyVal)) : LambdaResponse :=
  let mn := dictGetD body "min" (.int 0)
  let mx := dictGetD body "max" (.int 100)
  if !isinstanceNumber mn || !isinstanceNumber mx then
    lambdaError "Both \x27min\x27 and \x27max\x27 must be numbers"
  else if mx.numVal < mn.numVal then
    lambdaError ("min value (" ++ pyStr mn ++ ") cannot be greater than max value (" ++
      pyStr mx ++ ")")
  else
    { statusCode := 200,
      body := .dict
        [ ("operation", .str "get_random_number"),
          ("min", mn),
          ("max", mx),
          ("result", .float (uniform mn.numVal mx.numVal (g.real 0))) ] }

/-- `lambda_handler` of `random_operations/get_random_number_list.py`. -/
def randomNumberListLambda (g : RandGen) (body : List (String × PyVal)) : LambdaResponse :=
  let count := dictGetD body "count" (.int 5)
  let mn := dictGetD body "min" (.int 0)
  let mx := dictGetD body "max" (.int 100)
  match count.asInt?, isinstanceInt count with
  | some k, true =>
    if k < 1 || 1000 < k then
      lambdaError "count must be an integer between 1 and 1000"
    else if !isinstanceNumber mn || !isinstanceNumber mx then
      lambdaError "Both \x27min\x27 and \x27max\x27 must be numbers"
    else if mx.numVal < mn.numVal then
      lambdaError ("min value (" ++ pyStr mn ++ ") cannot be greater than max value (" ++
        pyStr mx ++ ")")
    else
      { statusCode := 200,
        body := .dict
          [ ("operation", .str "get_random_number_list"),
            ("count", count),
            ("min", mn),
            ("max", mx),
            ("result", .arr ((uniformList g k.toNat mn.numVal mx.numVal).map PyVal.float)) ] }
  | _, _ => lambdaError "count must be an integer between 1 and 1000"

/-- `lambda_handler` of `random_operations/get_random_choice.py`. -/
def randomChoiceLambda (g : RandGen) (body : List (String × PyVal)) : LambdaResponse :=
  if body.isEmpty || !hasKey body "choices" then
    lambdaError "\x27choices\x27 parameter is required"
  else
    let choices := dictGetD body "choices" .none
    let count := dictGetD body "count" (.int 1)
    let allow := dictGetD body "allow_duplicates" (.bool false)
    match choices with
    | .arr pool =>
      if pool.isEmpty then
        lambdaError "choices must be a non-empty array"
      else
        match count.asInt?, isinstanceInt count with
        | some k, true =>
          if k < 1 then
            lambdaError "count must be a positive integer"
          else if (pool.length : Int) < k && pyFalsy allow then
            lambdaError ("cannot select " ++ pyStr count ++ " unique items from " ++
              toString pool.length ++ " choices. Set allow_duplicates=true or reduce count.")
          else
            let result : PyVal :=
              if k = 1 then (pyChoiceAt g 0 (.arr pool)).getD .none
              else if pyTruthy allow then
                .arr (((List.range k.toNat).map (fun t => (pyChoiceAt g t (.arr pool)).getD .none)))
              else .arr (pySample g pool k.toNat)
            { statusCode := 200,
              body := .dict
                [ ("operation", .str "get_random_choice"),
                  ("choices_count", .int (pool.length : Int)),
                  ("count", count),
                  ("allow_duplicates", allow),
                  ("result", result) ] }
        | _, _ => lambdaError "count must be a positive integer"
    | _ => lambdaError "choices must be a non-empty array"

instance {ε α : Type} [DecidableEq ε] [DecidableEq α] : DecidableEq (Except ε α) := fun a b =>
  match a, b with
  | .ok x, .ok y =>
    if h : x = y then isTrue (by rw [h]) else isFalse (by simp [h])
  | .error x, .error y =>
    if h : x = y then isTrue (by rw [h]) else isFalse (by simp [h])
  | .ok _, .error _ => isFalse (by simp)
  | .error _, .ok _ => isFalse (by simp)

/-- A number-like value is an integer or a float. -/
theorem isNum_elim {a : PyVal} (h : a.isNum = true) :
    (∃ m, a = .int m) ∨ (∃ q, a = .float q) := by
  cases a <;>
    first
      | exact Or.inl ⟨_, rfl⟩
      | exact Or.inr ⟨_, rfl⟩
      | simp [PyVal.isNum] at h

@[simp] theorem numVal_int (m : Int) : (PyVal.int m).numVal = (m : Rat) := rfl

@[simp] theorem numVal_float (q : Rat) : (PyVal.float q).numVal = q := rfl

/-- On two numbers, the modelled Python `>` decides the `numVal` order. -/
theorem pyCmpGt_num {a b : PyVal} (ha : a.isNum = true) (hb : b.isNum = true) :
    pyCmpGt a b = some (decide (b.numVal < a.numVal)) := by
  rcases isNum_elim ha with ⟨m, rfl⟩ | ⟨p, rfl⟩ <;>
    rcases isNum_elim hb with ⟨n, rfl⟩ | ⟨q, rfl⟩ <;>
    simp [pyCmpGt, PyVal.coerceBool]

/-- On two numbers, the modelled Python `<` decides the `numVal` order. -/
theorem pyCmpLt_num {a b : PyVal} (ha : a.isNum = true) (hb : b.isNum = true) :
    pyCmpLt a b = some (decide (a.numVal < b.numVal)) := by
  rw [pyCmpLt, pyCmpGt_num hb ha]

/-- A number coerces to its `numVal`. -/
theorem asRat?_num {a : PyVal} (ha : a.isNum = true) : a.asRat? = some a.numVal := by
  rcases isNum_elim ha with ⟨m, rfl⟩ | ⟨q, rfl⟩ <;> rfl

/-- `v == 0` on a number decides whether its value is zero. -/
theorem pyEqInt_zero_num {a : PyVal} (ha : a.isNum = true) :
    pyEqInt a 0 = decide (a.numVal = 0) := by
  rcases isNum_elim ha with ⟨m, rfl⟩ | ⟨q, rfl⟩
  · simp [pyEqInt, PyVal.coerceBool]
    by_cases h : m = 0 <;> simp [h]
  · simp [pyEqInt, PyVal.coerceBool]
    by_cases h : q = 0 <;> simp [h]

/-- The Python sum of two numbers, as a value (total on numbers). -/
def pyAddN (a b : PyVal) : PyVal := (pyAdd a b).getD .none

/-- The Python difference of two numbers, as a value. -/
def pySubN (a b : PyVal) : PyVal := (pySub a b).getD .none

/-- The Python product of two numbers, as a value. -/
def pyMulN (a b : PyVal) : PyVal := (pyMul a b).getD .none

theorem pyAdd_num {a b : PyVal} (ha : a.isNum = true) (hb : b.isNum = true) :
    pyAdd a b = some (pyAddN a b) ∧ (pyAddN a b).isNum = true ∧
      (pyAddN a b).numVal = a.numVal + b.numVal := by
  rcases isNum_elim ha with ⟨m, rfl⟩ | ⟨p, rfl⟩ <;>
    rcases isNum_elim hb with ⟨n, rfl⟩ | ⟨q, rfl⟩ <;>
    refine ⟨rfl, rfl, ?_⟩ <;>
    simp [pyAddN, pyAdd, pyAddCore, PyVal.coerceBool, PyVal.numVal] <;>
    push_cast <;> ring

theorem pySub_num {a b : PyVal} (ha : a.isNum = true) (hb : b.isNum = true) :
    pySub a b = some (pySubN a b) ∧ (pySubN a b).isNum = true ∧
      (pySubN a b).numVal = a.numVal - b.numVal := by
  rcases isNum_elim ha with ⟨m, rfl⟩ | ⟨p, rfl⟩ <;>
    rcases isNum_elim hb with ⟨n, rfl⟩ | ⟨q, rfl⟩ <;>
    refine ⟨rfl, rfl, ?_⟩ <;>
    simp [pySubN, pySub, pySubCore, PyVal.coerceBool, PyVal.numVal] <;>
    push_cast <;> ring

theorem pyMul_num {a b : PyVal} (ha : a.isNum = true) (hb : b.isNum = true) :
    pyMul a b = some (pyMulN a b) ∧ (pyMulN a b).isNum = true ∧
      (pyMulN a b).numVal = a.numVal * b.numVal := by
  rcases isNum_elim ha with ⟨m, rfl⟩ | ⟨p, rfl⟩ <;>
    rcases isNum_elim hb with ⟨n, rfl⟩ | ⟨q, rfl⟩ <;>
    refine ⟨rfl, rfl, ?_⟩ <;>
    simp [pyMulN, pyMul, pyMulCore, PyVal.coerceBool, PyVal.numVal] <;>
    push_cast <;> ring

theorem pyDiv_num {a b : PyVal} (ha : a.isNum = true) (hb : b.isNum = true)
    (hz : b.numVal ≠ 0) : pyDiv a b = some (.float (a.numVal / b.numVal)) := by
  rcases isNum_elim ha with ⟨m, rfl⟩ | ⟨p, rfl⟩ <;>
    rcases isNum_elim hb with ⟨n, rfl⟩ | ⟨q, rfl⟩ <;>
    simp [pyDiv, pyDivCore, PyVal.coerceBool, PyVal.numVal] at hz ⊢ <;>
    simp [hz]

/-- The single `random.uniform` draw stays inside `[a, b]` whenever the
underlying `random.random()` draw lies in `[0, 1)`. -/
theorem uniform_mem {a b r : Rat} (hab : a ≤ b) (h0 : 0 ≤ r) (h1 : r < 1) :
    a ≤ uniform a b r ∧ uniform a b r ≤ b := by
  unfold uniform
  constructor <;> nlinarith

/-- `sampleGo` returns exactly `k` elements when the pool is large enough. -/
theorem sampleGo_length (f : Nat → Nat) :
    ∀ (k : Nat) (pool : List PyVal) (t : Nat), k ≤ pool.length →
      (sampleGo f k pool t).length = k := by
  intro k
  induction k with
  | zero => intro pool t _; rfl
  | succ n ih =>
    intro pool t hk
    have hpos : 0 < pool.length := Nat.lt_of_lt_of_le (Nat.succ_pos n) hk
    rw [sampleGo, dif_pos hpos]
    have herase : (pool.eraseIdx (f t % pool.length)).length = pool.length - 1 :=
      List.length_eraseIdx_of_lt (Nat.mod_lt _ hpos)
    have : n ≤ (pool.eraseIdx (f t % pool.length)).length := by omega
    simp [ih _ _ this]

/-- Every sampled element comes from the pool. -/
theorem sampleGo_subset (f : Nat → Nat) :
    ∀ (k : Nat) (pool : List PyVal) (t : Nat) (x : PyVal),
      x ∈ sampleGo f k pool t → x ∈ pool := by
  intro k
  induction k with
  | zero => intro pool t x hx; simp [sampleGo] at hx
  | succ n ih =>
    intro pool t x hx
    rw [sampleGo] at hx
    by_cases hpos : 0 < pool.length
    · rw [dif_pos hpos] at hx
      rcases List.mem_cons.mp hx with h | h
      · rw [h]; exact pool.get_mem _ _
      · exact (List.eraseIdx_sublist pool (f t % pool.length)).subset (ih _ _ _ h)
    · rw [dif_neg hpos] at hx
      simp at hx

/-- In a duplicate-free list, the element at position `i` does not survive
the erasure of position `i`. -/
theorem get_not_mem_eraseIdx :
    ∀ (l : List PyVal) (i : Nat) (h : i < l.length), l.Nodup →
      l.get ⟨i, h⟩ ∉ l.eraseIdx i := by
  intro l
  induction l with
  | nil => intro i h; simp at h
  | cons a tl ih =>
    intro i h hnd
    rcases List.nodup_cons.mp hnd with ⟨ha, htl⟩
    cases i with
    | zero => simpa using ha
    | succ j =>
      have hj : j < tl.length := Nat.lt_of_succ_lt_succ h
      intro hmem
      rcases List.mem_cons.mp hmem with heq | hmem2
      · exact ha (heq ▸ tl.get_mem j hj)
      · exact ih j hj htl hmem2

/-- Sampling without replacement from a duplicate-free pool yields a
duplicate-free selection. -/
theorem sampleGo_nodup (f : Nat → Nat) :
    ∀ (k : Nat) (pool : List PyVal) (t : Nat), pool.Nodup →
      (sampleGo f k pool t).Nodup := by
  intro k
  induction k with
  | zero => intro pool t _; simp [sampleGo]
  | succ n ih =>
    intro pool t hnd
    rw [sampleGo]
    by_cases hpos : 0 < pool.length
    · rw [dif_pos hpos]
      refine List.nodup_cons.mpr ⟨?_, ih _ _ ((List.eraseIdx_sublist _ _).nodup hnd)⟩
      intro hmem
      exact get_not_mem_eraseIdx pool _ (Nat.mod_lt _ hpos) hnd
        (sampleGo_subset f n _ _ _ hmem)
    · rw [dif_neg hpos]; exact List.nodup_nil

/-- A `PyVal` that is not the given string literal fails the `==` test. -/
theorem pyIsStr_eq_false {m : PyVal} {s : String} (h : m ≠ .str s) :
    pyIsStr m s = false := by
  cases m <;> simp [pyIsStr]
  intro hh
  exact h (by rw [hh])

/-- A number is never `None`. -/
theorem isNone_of_isNum {a : PyVal} (h : a.isNum = true) : a.isNone = false := by
  rcases isNum_elim h with ⟨m, rfl⟩ | ⟨q, rfl⟩ <;> rfl

/-- A number passes `isinstance(v, (int, float))`. -/
theorem isinstanceNumber_of_isNum {a : PyVal} (h : a.isNum = true) :
    isinstanceNumber a = true := by
  rcases isNum_elim h with ⟨m, rfl⟩ | ⟨q, rfl⟩ <;> rfl

/-- C2.  The two stdio catalogs are not byte-identical: the `math_add`
descriptor differs between the local and the remote-proxy binding — the
proxy appends " (Cloud)" to the description — so the claim that every
descriptor has byte-identical content fails on this input. -/
theorem c2_counterexample :
    (findTool localTools "math_add").map McpTool.description =
      some "Add two numbers together" ∧
    (findTool proxyTools "math_add").map McpTool.description =
      some "Add two numbers together (Cloud)" ∧
    (some "Add two numbers together" : Option String) ≠
      some "Add two numbers together (Cloud)" :=
  ⟨rfl, rfl, by decide⟩

/-- C2 (amended).  The local and remote-proxy `tools/list` catalogs agree
on the 7 tool names, in the same order, and on every parameter schema;
each proxy description is exactly the local description with " (Cloud)"
appended, so descriptors are not byte-identical. -/
theorem c2_catalogs :
    proxyTools =
      localTools.map (fun t => { t with description := t.description ++ " (Cloud)" }) ∧
    proxyTools.map McpTool.name = localTools.map McpTool.name ∧
    proxyTools.map McpTool.inputSchema = localTools.map McpTool.inputSchema ∧
    localTools.map McpTool.name =
      ["get_random_number", "get_random_number_list", "get_random_choice",
       "math_add", "math_subtract", "math_multiply", "math_divide"] ∧
    localTools.length = 7 :=
  ⟨rfl, rfl, rfl, rfl, rfl⟩

/-- C5.  The MCP bindings perform no runtime type validation: a
`math_add` call binding both declared number parameters to strings is not
rejected — the executor runs and returns the string concatenation as a
successful result, in the local binding and in the cloud MCP server
alike. -/
theorem c5_counterexample :
    localCallTool gZero "math_add" (some [("a", .str "2"), ("b", .str "3")]) =
      .ok [.text "2 + 3 = 23"] ∧
    cloudCallTool gZero (.str "math_add") (.dict [("a", .str "2"), ("b", .str "3")]) =
      .ok [.text "2 + 3 = 23"] ∧
    ("2 + 3 = 23" : String) ≠ "Error: Both \x27a\x27 and \x27b\x27 parameters are required" :=
  ⟨rfl, rfl, by decide⟩

/-- C5 (amended).  Runtime type validation of number parameters exists
only in the REST lambda layer: `math_add.py` rejects a string-typed
operand with a 400 `InvalidArgument` response before computing, while
the MCP `tools/call` bindings check only presence and hand string
operands straight to the executor, which concatenates them. -/
theorem c5_type_validation :
    (∀ s v, mathAddLambda [("a", .str s), ("b", v)] =
      lambdaError "Both \x27a\x27 and \x27b\x27 must be numbers") ∧
    (∀ s v, mathAddLambda [("a", v), ("b", .str s)] =
      lambdaError "Both \x27a\x27 and \x27b\x27 must be numbers") ∧
    (∀ g s t, localCallTool g "math_add" (some [("a", .str s), ("b", .str t)]) =
      .ok [.text (s ++ " + " ++ t ++ " = " ++ (s ++ t))]) ∧
    (∀ g s t, cloudCallTool g (.str "math_add") (.dict [("a", .str s), ("b", .str t)]) =
      .ok [.text (s ++ " + " ++ t ++ " = " ++ (s ++ t))]) := by
  refine ⟨?_, ?_, ?_, ?_⟩
  · intro s v
    simp [mathAddLambda, hasKey, dictGet, dictGetD, isinstanceNumber]
  · intro s v
    simp [mathAddLambda, hasKey, dictGet, dictGetD, isinstanceNumber]
  · intro g s t
    simp [localCallTool, localMathBranch, hasKey, dictGet, dictGetD,
      pyAdd, pyAddCore, PyVal.coerceBool, pyStr, pyRepr]
  · intro g s t
    simp [cloudCallTool, cloudCallToolNamed, cloudMathBranch, hasKey, dictGet,
      dictGetD, PyVal.isNone, pyAdd, pyAddCore, PyVal.coerceBool, pyStr, pyRepr]

/-- C6.  The local binding formats arithmetic results with the symbols
`+`, `-`, `×`, `÷` (in particular `math_add` on 2 and 3 yields exactly
"2 + 3 = 5"), but the cloud MCP server emits mojibake in place of `×`:
its `math_multiply` result text on the same input is "2 ร\u0097 3 = 6",
which differs from the symbol the specification names. -/
theorem c6_result_text (g : RandGen) :
    localCallTool g "math_add" (some [("a", .int 2), ("b", .int 3)]) =
      .ok [.text "2 + 3 = 5"] ∧
    localCallTool g "math_multiply" (some [("a", .int 2), ("b", .int 3)]) =
      .ok [.text "2 × 3 = 6"] ∧
    cloudCallTool g (.str "math_add") (.dict [("a", .int 2), ("b", .int 3)]) =
      .ok [.text "2 + 3 = 5"] ∧
    cloudCallTool g (.str "math_multiply") (.dict [("a", .int 2), ("b", .int 3)]) =
      .ok [.text "2 ร\u0097 3 = 6"] ∧
    ("2 ร\u0097 3 = 6" : String) ≠ "2 × 3 = 6" :=
  ⟨rfl, rfl, rfl, rfl, by decide⟩

/-- C4.  The Lambda MCP dispatcher maps malformed JSON to JSON-RPC error
-32700 with `id` null, an envelope without a `method` field to -32600
with `id` null, and every envelope whose method is none of `initialize`,
`initialized`, `tools/list`, `tools/call` to -32601. -/
theorem c4_dispatcher_codes (g : RandGen) :
    ((cloudLambda g .badJson).errorCode = some (-32700) ∧
      (cloudLambda g .badJson).rpcId = some .none) ∧
    (∀ fields, dictGet fields "method" = Option.none →
      (cloudLambda g (.post fields)).errorCode = some (-32600) ∧
      (cloudLambda g (.post fields)).rpcId = some .none) ∧
    (∀ fields m, dictGet fields "method" = some m →
      m ≠ .str "initialize" → m ≠ .str "initialized" →
      m ≠ .str "tools/list" → m ≠ .str "tools/call" →
      (cloudLambda g (.post fields)).errorCode = some (-32601)) := by
  refine ⟨⟨rfl, rfl⟩, ?_, ?_⟩
  · intro fields h
    simp [cloudLambda, h, createMcpError, HttpResponse.errorCode, HttpResponse.rpcId, dictGet]
  · intro fields m hm h1 h2 h3 h4
    simp [cloudLambda, hm, pyIsStr_eq_false h1, pyIsStr_eq_false h2,
      pyIsStr_eq_false h3, pyIsStr_eq_false h4,
      createMcpError, HttpResponse.errorCode, dictGet]

/-- C4 witness: a body without `method` and a body with an unknown method
drive the -32600 and -32601 paths. -/
theorem c4_dispatcher_codes_witness :
    dictGet [("id", PyVal.int 1)] "method" = Option.none ∧
    (cloudLambda gZero (.post [("id", PyVal.int 1)])).errorCode = some (-32600) ∧
    dictGet [("method", PyVal.str "nosuch/method")] "method" =
      some (.str "nosuch/method") ∧
    (cloudLambda gZero (.post [("method", PyVal.str "nosuch/method")])).errorCode =
      some (-32601) := by
  have h := c4_dispatcher_codes gZero
  exact ⟨rfl, (h.2.1 [("id", PyVal.int 1)] rfl).1, rfl,
    h.2.2 [("method", PyVal.str "nosuch/method")] (PyVal.str "nosuch/method") rfl
      (by simp) (by simp) (by simp) (by simp)⟩

/-- C9.  The remote proxy converts every outcome of its HTTP call into a
single text content item and never a protocol-level error: on 200 it
prefers the `expression` field verbatim, then a formatting of `result`,
then the serialised body; a timeout and a connection failure become fixed
textual messages. -/
theorem c9_proxy_text_only (name : String) (ep : PyVal)
    (hname : dictGet (proxyEndpointMap.map fun p => (p.1, PyVal.str p.2)) name = some ep) :
    (∀ body s, dictGet body "expression" = some (.str s) →
      proxyCallTool (.ok body) name = [.text s]) ∧
    (∀ body r, dictGet body "expression" = Option.none →
      dictGet body "result" = some r →
      proxyCallTool (.ok body) name = [.text ("Result: " ++ pyStr r)]) ∧
    (∀ body, dictGet body "expression" = Option.none →
      dictGet body "result" = Option.none →
      proxyCallTool (.ok body) name = [.text ("Success: " ++ jsonDumps (.dict body))]) ∧
    proxyCallTool .timeout name = [.text "Error: Request timed out"] ∧
    (∀ msg, proxyCallTool (.netError msg) name =
      [.text ("Error: Network request failed - " ++ msg)]) ∧
    (∀ net nm, (proxyCallTool net nm).length = 1) := by
  refine ⟨?_, ?_, ?_, ?_, ?_, ?_⟩
  · intro body s he
    simp [proxyCallTool, hname, he, pyStr]
  · intro body r he hr
    simp [proxyCallTool, hname, he, hr]
  · intro body he hr
    simp [proxyCallTool, hname, he, hr]
  · simp [proxyCallTool, hname]
  · intro msg
    simp [proxyCallTool, hname]
  · intro net nm
    rcases hl : dictGet (proxyEndpointMap.map fun p => (p.1, PyVal.str p.2)) nm with _ | ep
    · simp [proxyCallTool, hl]
    · cases net with
      | ok body =>
        rcases he : dictGet body "expression" with _ | e
        · rcases hr : dictGet body "result" with _ | r
          · simp [proxyCallTool, hl, he, hr]
          · simp [proxyCallTool, hl, he, hr]
        · simp [proxyCallTool, hl, he]
      | errJson st d => simp [proxyCallTool, hl]
      | errRaw st t => simp [proxyCallTool, hl]
      | timeout => simp [proxyCallTool, hl]
      | netError m => simp [proxyCallTool, hl]
      | otherError m => simp [proxyCallTool, hl]

/-- C9 witness: the `math_add` endpoint with an `expression`-bearing 200
body, and the timeout outcome. -/
theorem c9_proxy_text_only_witness :
    dictGet (proxyEndpointMap.map fun p => (p.1, PyVal.str p.2)) "math_add" =
      some (.str "/math/add") ∧
    proxyCallTool (.ok [("result", .int 5), ("expression", .str "2 + 3 = 5")]) "math_add" =
      [.text "2 + 3 = 5"] ∧
    proxyCallTool .timeout "math_add" = [.text "Error: Request timed out"] := by
  have h := c9_proxy_text_only "math_add" (.str "/math/add") rfl
  exact ⟨rfl, h.1 _ _ rfl, h.2.2.2.1⟩

/-- C10.  When `call_tool` raises inside a `tools/call` request, the
Lambda dispatcher answers with JSON-RPC error -32603 whose `id` is null,
discarding the caller-supplied request id. -/
theorem c10_tool_error_drops_id (g : RandGen) (fields p : List (String × PyVal)) (msg : String)
    (hm : dictGet fields "method" = some (.str "tools/call"))
    (hp : dictGet fields "params" = some (.dict p))
    (hfail : cloudCallTool g ((dictGet p "name").getD .none)
      ((dictGet p "arguments").getD (.dict [])) = .error msg) :
    cloudLambda g (.post fields) =
      createMcpError .none (-32603) ("Internal error: " ++ msg) ∧
    (cloudLambda g (.post fields)).rpcId = some PyVal.none ∧
    (cloudLambda g (.post fields)).errorCode = some (-32603) := by
  have heq : cloudLambda g (.post fields) =
      createMcpError .none (-32603) ("Internal error: " ++ msg) := by
    simp [cloudLambda, hm, hp, pyIsStr, hfail]
  refine ⟨heq, ?_, ?_⟩ <;>
    rw [heq] <;> rfl

/-- C10 witness: a division by zero carrying request id 42 is answered
with code -32603 and `id` null. -/
theorem c10_tool_error_drops_id_witness :
    dictGet [("method", PyVal.str "tools/call"), ("id", PyVal.int 42),
        ("params", PyVal.dict [("name", PyVal.str "math_divide"),
          ("arguments", PyVal.dict [("a", PyVal.int 1), ("b", PyVal.int 0)])])]
      "method" = some (.str "tools/call") ∧
    cloudCallTool gZero (.str "math_divide")
      (.dict [("a", PyVal.int 1), ("b", PyVal.int 0)]) =
      .error "Division by zero is not allowed" ∧
    cloudLambda gZero (.post [("method", PyVal.str "tools/call"), ("id", PyVal.int 42),
        ("params", PyVal.dict [("name", PyVal.str "math_divide"),
          ("arguments", PyVal.dict [("a", PyVal.int 1), ("b", PyVal.int 0)])])]) =
      createMcpError .none (-32603) ("Internal error: " ++ "Division by zero is not allowed") := by
  have h := c10_tool_error_drops_id gZero
    [("method", PyVal.str "tools/call"), ("id", PyVal.int 42),
      ("params", PyVal.dict [("name", PyVal.str "math_divide"),
        ("arguments", PyVal.dict [("a", PyVal.int 1), ("b", PyVal.int 0)])])]
    [("name", PyVal.str "math_divide"),
      ("arguments", PyVal.dict [("a", PyVal.int 1), ("b", PyVal.int 0)])]
    "Division by zero is not allowed" rfl rfl rfl
  exact ⟨rfl, rfl, h.1⟩

/-- C1.  For numeric operands, both the local binding and the cloud MCP
server compute `a+b`, `a-b`, `a*b` and (for nonzero `b`) the exact
quotient `a/b`, embedding the value in the result text; division by zero
is reported — as an error text in the local binding, as a caught
`ValueError` that the dispatcher turns into a JSON-RPC error in the cloud
binding — and never escapes to the caller.  All handlers are pure
functions of their input and random oracle, so no state survives a call. -/
theorem c1_arithmetic (g : RandGen) (a b : PyVal)
    (ha : a.isNum = true) (hb : b.isNum = true) :
    (localCallTool g "math_add" (some [("a", a), ("b", b)]) =
        .ok [.text (pyStr a ++ " + " ++ pyStr b ++ " = " ++ pyStr (pyAddN a b))] ∧
      (pyAddN a b).numVal = a.numVal + b.numVal) ∧
    (localCallTool g "math_subtract" (some [("a", a), ("b", b)]) =
        .ok [.text (pyStr a ++ " - " ++ pyStr b ++ " = " ++ pyStr (pySubN a b))] ∧
      (pySubN a b).numVal = a.numVal - b.numVal) ∧
    (localCallTool g "math_multiply" (some [("a", a), ("b", b)]) =
        .ok [.text (pyStr a ++ " × " ++ pyStr b ++ " = " ++ pyStr (pyMulN a b))] ∧
      (pyMulN a b).numVal = a.numVal * b.numVal) ∧
    (b.numVal ≠ 0 →
      localCallTool g "math_divide" (some [("a", a), ("b", b)]) =
        .ok [.text (pyStr a ++ " ÷ " ++ pyStr b ++ " = " ++
          floatStr (a.numVal / b.numVal))]) ∧
    (b.numVal = 0 →
      localCallTool g "math_divide" (some [("a", a), ("b", b)]) =
        .ok [.text "Error: Division by zero is not allowed"]) ∧
    (cloudCallTool g (.str "math_add") (.dict [("a", a), ("b", b)]) =
      .ok [.text (pyStr a ++ " + " ++ pyStr b ++ " = " ++ pyStr (pyAddN a b))]) ∧
    (cloudCallTool g (.str "math_subtract") (.dict [("a", a), ("b", b)]) =
      .ok [.text (pyStr a ++ " - " ++ pyStr b ++ " = " ++ pyStr (pySubN a b))]) ∧
    (cloudCallTool g (.str "math_multiply") (.dict [("a", a), ("b", b)]) =
      .ok [.text (pyStr a ++ " ร\u0097 " ++ pyStr b ++ " = " ++ pyStr (pyMulN a b))]) ∧
    (b.numVal ≠ 0 →
      cloudCallTool g (.str "math_divide") (.dict [("a", a), ("b", b)]) =
        .ok [.text (pyStr a ++ " รท " ++ pyStr b ++ " = " ++
          floatStr (a.numVal / b.numVal))]) ∧
    (b.numVal = 0 →
      cloudCallTool g (.str "math_divide") (.dict [("a", a), ("b", b)]) =
        .error "Division by zero is not allowed" ∧
      cloudLambda g (.post [("method", .str "tools/call"), ("id", .int 7),
          ("params", .dict [("name", .str "math_divide"),
            ("arguments", .dict [("a", a), ("b", b)])])]) =
        createMcpError .none (-32603) "Internal error: Division by zero is not allowed") := by
  have hadd := pyAdd_num ha hb
  have hsub := pySub_num ha hb
  have hmul := pyMul_num ha hb
  refine ⟨⟨?_, hadd.2.2⟩, ⟨?_, hsub.2.2⟩, ⟨?_, hmul.2.2⟩, ?_, ?_, ?_, ?_, ?_, ?_, ?_⟩
  · simp [localCallTool, localMathBranch, hasKey, dictGet, dictGetD, hadd.1]
  · simp [localCallTool, localMathBranch, hasKey, dictGet, dictGetD, hsub.1]
  · simp [localCallTool, localMathBranch, hasKey, dictGet, dictGetD, hmul.1]
  · intro hz
    simp [localCallTool, localMathDivide, hasKey, dictGet, dictGetD,
      pyEqInt_zero_num hb, hz, pyDiv_num ha hb hz, pyStr, pyRepr]
  · intro hz
    simp [localCallTool, localMathDivide, hasKey, dictGet, dictGetD,
      pyEqInt_zero_num hb, hz]
  · simp [cloudCallTool, cloudCallToolNamed, cloudMathBranch, dictGet, dictGetD,
      isNone_of_isNum ha, isNone_of_isNum hb, hadd.1]
  · simp [cloudCallTool, cloudCallToolNamed, cloudMathBranch, dictGet, dictGetD,
      isNone_of_isNum ha, isNone_of_isNum hb, hsub.1]
  · simp [cloudCallTool, cloudCallToolNamed, cloudMathBranch, dictGet, dictGetD,
      isNone_of_isNum ha, isNone_of_isNum hb, hmul.1]
  · intro hz
    simp [cloudCallTool, cloudCallToolNamed, cloudMathDivide, dictGet, dictGetD,
      isNone_of_isNum ha, isNone_of_isNum hb, pyEqInt_zero_num hb, hz,
      pyDiv_num ha hb hz, pyStr, pyRepr]
  · intro hz
    have hfail : cloudCallTool g (.str "math_divide") (.dict [("a", a), ("b", b)]) =
        .error "Division by zero is not allowed" := by
      simp [cloudCallTool, cloudCallToolNamed, cloudMathDivide, dictGet, dictGetD,
        isNone_of_isNum ha, isNone_of_isNum hb, pyEqInt_zero_num hb, hz]
    refine ⟨hfail, ?_⟩
    simp [cloudLambda, dictGet, pyIsStr, hfail]

/-- C1 witness: concrete integer calls exercising the success and the
division-by-zero paths of both bindings. -/
theorem c1_arithmetic_witness :
    (PyVal.int 2).isNum = true ∧ (PyVal.int 3).isNum = true ∧
    (PyVal.int 0).isNum = true ∧
    localCallTool gZero "math_add" (some [("a", .int 2), ("b", .int 3)]) =
      .ok [.text "2 + 3 = 5"] ∧
    localCallTool gZero "math_subtract" (some [("a", .int 2), ("b", .int 3)]) =
      .ok [.text "2 - 3 = -1"] ∧
    localCallTool gZero "math_divide" (some [("a", .int 2), ("b", .int 0)]) =
      .ok [.text "Error: Division by zero is not allowed"] ∧
    cloudCallTool gZero (.str "math_divide") (.dict [("a", .int 2), ("b", .int 0)]) =
      .error "Division by zero is not allowed" := by
  have h3 := c1_arithmetic gZero (.int 2) (.int 3) rfl rfl
  have h0 := c1_arithmetic gZero (.int 2) (.int 0) rfl rfl
  have hz : (PyVal.int 0).numVal = 0 := by decide
  exact ⟨rfl, rfl, rfl,
    h3.1.1.trans (by rfl),
    (h3.2.1).1.trans (by rfl),
    h0.2.2.2.2.1 hz,
    ((h0.2.2.2.2.2.2.2.2.2) hz).1⟩

/-- C7.  With numeric bounds `min ≤ max` and a `random.random()` draw in
`[0,1)`, `get_random_number` returns the single uniform draw, which lies
in `[min, max]`, in the local binding and in the REST lambda alike; with
`min > max` both reject before drawing — the result is an error that does
not depend on the random source. -/
theorem c7_random_number (g : RandGen) (a b : PyVal)
    (ha : a.isNum = true) (hb : b.isNum = true)
    (hr0 : 0 ≤ g.real 0) (hr1 : g.real 0 < 1) :
    (a.numVal ≤ b.numVal →
      localCallTool g "get_random_number" (some [("min", a), ("max", b)]) =
        .ok [.text ("Random number: " ++
          floatStr (uniform a.numVal b.numVal (g.real 0)))] ∧
      a.numVal ≤ uniform a.numVal b.numVal (g.real 0) ∧
      uniform a.numVal b.numVal (g.real 0) ≤ b.numVal ∧
      randomNumberLambda g [("min", a), ("max", b)] =
        { statusCode := 200,
          body := .dict
            [ ("operation", .str "get_random_number"),
              ("min", a),
              ("max", b),
              ("result", .float (uniform a.numVal b.numVal (g.real 0))) ] }) ∧
    (b.numVal < a.numVal →
      localCallTool g "get_random_number" (some [("min", a), ("max", b)]) =
        .ok [.text ("Error: min value (" ++ pyStr a ++
          ") cannot be greater than max value (" ++ pyStr b ++ ")")] ∧
      randomNumberLambda g [("min", a), ("max", b)] =
        lambdaError ("min value (" ++ pyStr a ++
          ") cannot be greater than max value (" ++ pyStr b ++ ")")) := by
  constructor
  · intro hle
    have hgt : ¬ b.numVal < a.numVal := not_lt.mpr hle
    obtain ⟨h1, h2⟩ := uniform_mem hle hr0 hr1
    refine ⟨?_, h1, h2, ?_⟩
    · simp [localCallTool, localRandomNumber, dictGetD, dictGet,
        pyCmpGt_num ha hb, hgt, asRat?_num ha, asRat?_num hb]
    · simp [randomNumberLambda, dictGetD, dictGet,
        isinstanceNumber_of_isNum ha, isinstanceNumber_of_isNum hb, hgt]
  · intro hgt
    constructor
    · simp [localCallTool, localRandomNumber, dictGetD, dictGet,
        pyCmpGt_num ha hb, hgt]
    · simp [randomNumberLambda, dictGetD, dictGet,
        isinstanceNumber_of_isNum ha, isinstanceNumber_of_isNum hb, hgt]

/-- C7 witness: bounds 0 and 10 with the all-zero oracle draw, and the
inverted bounds 5 and 2. -/
theorem c7_random_number_witness :
    (PyVal.int 0).isNum = true ∧ (PyVal.int 10).isNum = true ∧
    0 ≤ gZero.real 0 ∧ gZero.real 0 < 1 ∧
    (PyVal.int 0).numVal ≤ (PyVal.int 10).numVal ∧
    (localCallTool gZero "get_random_number"
        (some [("min", PyVal.int 0), ("max", PyVal.int 10)]) =
      .ok [.text ("Random number: " ++
        floatStr (uniform (PyVal.int 0).numVal (PyVal.int 10).numVal (gZero.real 0)))]) ∧
    (PyVal.int 2).numVal < (PyVal.int 5).numVal ∧
    (localCallTool gZero "get_random_number"
        (some [("min", PyVal.int 5), ("max", PyVal.int 2)]) =
      .ok [.text "Error: min value (5) cannot be greater than max value (2)"]) := by
  have hup := c7_random_number gZero (PyVal.int 0) (PyVal.int 10) rfl rfl
    (by decide) (by decide)
  have hdown := c7_random_number gZero (PyVal.int 5) (PyVal.int 2) rfl rfl
    (by decide) (by decide)
  refine ⟨rfl, rfl, by decide, by decide, by decide,
    (hup.1 (by decide)).1, by decide, ?_⟩
  exact ((hdown.2 (by decide)).1).trans (by rfl)

@[simp] theorem pyCmpGt_int (m n : Int) :
    pyCmpGt (.int m) (.int n) = some (decide (n < m)) := by
  simp [pyCmpGt, PyVal.coerceBool]

@[simp] theorem pyCmpLt_int (m n : Int) :
    pyCmpLt (.int m) (.int n) = some (decide (m < n)) := by
  simp [pyCmpLt, pyCmpGt, PyVal.coerceBool]

/-- C8.  With an integer count in `[1, 1000]`, numeric bounds
`min ≤ max`, and every `random.random()` draw in `[0,1)`,
`get_random_number_list` returns exactly `count` values in draw order,
each inside `[min, max]`, in the local binding and the REST lambda alike;
an out-of-range count fails validation in both. -/
theorem c8_random_number_list (g : RandGen) (mn mx : PyVal) (k : Int)
    (hmn : mn.isNum = true) (hmx : mx.isNum = true)
    (hle : mn.numVal ≤ mx.numVal)
    (hr : ∀ t, 0 ≤ g.real t ∧ g.real t < 1) :
    (1 ≤ k → k ≤ 1000 →
      localCallTool g "get_random_number_list"
          (some [("count", .int k), ("min", mn), ("max", mx)]) =
        .ok [.text ("Random numbers: " ++
          pyStr (.arr ((uniformList g k.toNat mn.numVal mx.numVal).map PyVal.float)))] ∧
      randomNumberListLambda g [("count", .int k), ("min", mn), ("max", mx)] =
        { statusCode := 200,
          body := .dict
            [ ("operation", .str "get_random_number_list"),
              ("count", .int k),
              ("min", mn),
              ("max", mx),
              ("result", .arr ((uniformList g k.toNat mn.numVal mx.numVal).map PyVal.float)) ] } ∧
      (uniformList g k.toNat mn.numVal mx.numVal).length = k.toNat ∧
      (∀ i, i < k.toNat →
        (uniformList g k.toNat mn.numVal mx.numVal)[i]? =
          some (uniform mn.numVal mx.numVal (g.real i))) ∧
      (∀ x ∈ uniformList g k.toNat mn.numVal mx.numVal,
        mn.numVal ≤ x ∧ x ≤ mx.numVal)) ∧
    (k < 1 ∨ 1000 < k →
      localCallTool g "get_random_number_list"
          (some [("count", .int k), ("min", mn), ("max", mx)]) =
        .ok [.text ("Error: count must be between 1 and 1000, got " ++ toString k)] ∧
      randomNumberListLambda g [("count", .int k), ("min", mn), ("max", mx)] =
        lambdaError "count must be an integer between 1 and 1000") := by
  have hgt : ¬ mx.numVal < mn.numVal := not_lt.mpr hle
  constructor
  · intro hk1 hk2
    have hlo : ¬ k < 1 := not_lt.mpr hk1
    have hhi : ¬ (1000 : Int) < k := not_lt.mpr hk2
    refine ⟨?_, ?_, by simp [uniformList], ?_, ?_⟩
    · simp [localCallTool, localRandomNumberList, dictGetD, dictGet,
        pyCmpGt_num hmn hmx, hgt, hlo, hhi, PyVal.asRangeLen?,
        asRat?_num hmn, asRat?_num hmx]
    · simp [randomNumberListLambda, dictGetD, dictGet, PyVal.asInt?,
        isinstanceInt, isinstanceNumber_of_isNum hmn, isinstanceNumber_of_isNum hmx,
        hlo, hhi, hgt]
    · intro i hi
      simp [uniformList, hi]
    · intro x hx
      simp only [uniformList, List.mem_map, List.mem_range] at hx
      obtain ⟨t, _, rfl⟩ := hx
      exact uniform_mem hle (hr t).1 (hr t).2
  · intro hk
    have hbad : (decide (k < 1) || decide (1000 < k)) = true := by
      rcases hk with h | h <;> simp [h]
    constructor
    · simp [localCallTool, localRandomNumberList, dictGetD, dictGet,
        pyCmpGt_num hmn hmx, hgt, hbad, pyStr, pyRepr]
    · rcases hk with h | h <;>
        simp [randomNumberListLambda, dictGetD, dictGet, PyVal.asInt?,
          isinstanceInt, h]

/-- C8 witness: count 2 inside the range and count 0 outside it, with
bounds 0 and 10 and the all-zero oracle. -/
theorem c8_random_number_list_witness :
    (PyVal.int 0).isNum = true ∧ (PyVal.int 10).isNum = true ∧
    (PyVal.int 0).numVal ≤ (PyVal.int 10).numVal ∧
    (∀ t, 0 ≤ gZero.real t ∧ gZero.real t < 1) ∧
    (localCallTool gZero "get_random_number_list"
        (some [("count", PyVal.int 2), ("min", PyVal.int 0), ("max", PyVal.int 10)]) =
      .ok [.text ("Random numbers: " ++
        pyStr (.arr ((uniformList gZero (2 : Int).toNat (PyVal.int 0).numVal
          (PyVal.int 10).numVal).map PyVal.float)))]) ∧
    (uniformList gZero (2 : Int).toNat (PyVal.int 0).numVal (PyVal.int 10).numVal).length =
      (2 : Int).toNat ∧
    (localCallTool gZero "get_random_number_list"
        (some [("count", PyVal.int 0), ("min", PyVal.int 0), ("max", PyVal.int 10)]) =
      .ok [.text "Error: count must be between 1 and 1000, got 0"]) := by
  have hr : ∀ t, 0 ≤ gZero.real t ∧ gZero.real t < 1 := fun _ => ⟨le_rfl, zero_lt_one⟩
  have h2 := c8_random_number_list gZero (PyVal.int 0) (PyVal.int 10) 2
    rfl rfl (by decide) hr
  have h0 := c8_random_number_list gZero (PyVal.int 0) (PyVal.int 10) 0
    rfl rfl (by decide) hr
  obtain ⟨ha, _, hlen, _, _⟩ := h2.1 (by decide) (by decide)
  refine ⟨rfl, rfl, by decide, hr, ha, hlen, ?_⟩
  exact (h0.2 (Or.inl (by decide))).1.trans (by rfl)

/-- C3 (amended).  With `allow_duplicates=false` and an integer count with
`1 < count ≤ len(choices)`, `get_random_choice` returns exactly `count`
elements sampled without replacement — drawn from pairwise-distinct
positions of `choices`, hence pairwise-distinct values whenever `choices`
itself is duplicate-free — in the local binding and the REST lambda
alike; with `count > len(choices)` the call fails validation. -/
theorem c3_random_choice (g : RandGen) (l : List PyVal) (k : Int)
    (hne : l ≠ []) (hk1 : 1 < k) (hkle : k ≤ (l.length : Int)) :
    (localCallTool g "get_random_choice"
        (some [("choices", .arr l), ("count", .int k), ("allow_duplicates", .bool false)]) =
      .ok [.text ("Random choices: " ++ pyStr (.arr (pySample g l k.toNat)))]) ∧
    (randomChoiceLambda g
        [("choices", .arr l), ("count", .int k), ("allow_duplicates", .bool false)] =
      { statusCode := 200,
        body := .dict
          [ ("operation", .str "get_random_choice"),
            ("choices_count", .int (l.length : Int)),
            ("count", .int k),
            ("allow_duplicates", .bool false),
            ("result", .arr (pySample g l k.toNat)) ] }) ∧
    (pySample g l k.toNat).length = k.toNat ∧
    (∀ x ∈ pySample g l k.toNat, x ∈ l) ∧
    (l.Nodup → (pySample g l k.toNat).Nodup) ∧
    (∀ k' : Int, (l.length : Int) < k' →
      localCallTool g "get_random_choice"
          (some [("choices", .arr l), ("count", .int k'), ("allow_duplicates", .bool false)]) =
        .ok [.text ("Error: cannot select " ++ toString k' ++ " unique items from " ++
          toString l.length ++ " choices. Set allow_duplicates=true or reduce count.")] ∧
      randomChoiceLambda g
          [("choices", .arr l), ("count", .int k'), ("allow_duplicates", .bool false)] =
        lambdaError ("cannot select " ++ toString k' ++ " unique items from " ++
          toString l.length ++ " choices. Set allow_duplicates=true or reduce count.")) := by
  have hempty : l.isEmpty = false := by
    cases l with
    | nil => exact absurd rfl hne
    | cons x xs => rfl
  have hnotlt : ¬ (l.length : Int) < k := not_lt.mpr hkle
  have hkne1 : k ≠ 1 := by omega
  have hk0 : ¬ k < 0 := by omega
  have hkn : k.toNat ≤ l.length := by omega
  refine ⟨?_, ?_, sampleGo_length g.nat k.toNat l 0 hkn,
    fun x hx => sampleGo_subset g.nat k.toNat l 0 x hx,
    fun hnd => sampleGo_nodup g.nat k.toNat l 0 hnd, ?_⟩
  · simp [localCallTool, localRandomChoice, hasKey, dictGet, dictGetD,
      pyFalsy, hempty, pyLen, hnotlt, pyEqInt, PyVal.coerceBool, hkne1,
      pyTruthy, PyVal.asInt?, hk0, pySample]
  · have hk1' : ¬ k < 1 := by omega
    simp [randomChoiceLambda, hasKey, dictGet, dictGetD, hempty,
      PyVal.asInt?, isinstanceInt, hk1', hnotlt, pyFalsy, pyTruthy,
      pyEqInt, PyVal.coerceBool, hkne1, pySample]
  · intro k' hgt
    have hgt' : ¬ k' < 1 := by omega
    have hkne1b : k' ≠ 1 := by omega
    constructor
    · simp [localCallTool, localRandomChoice, hasKey, dictGet, dictGetD,
        pyFalsy, hempty, pyLen, hgt, pyStr, pyRepr]
    · simp [randomChoiceLambda, hasKey, dictGet, dictGetD, hempty,
        PyVal.asInt?, isinstanceInt, hgt', hgt, pyFalsy, pyStr, pyRepr]

/-- C3 witness: three distinct choices, count 2, duplicates disallowed. -/
theorem c3_random_choice_witness :
    ([PyVal.str "x", PyVal.str "y", PyVal.str "z"] : List PyVal) ≠ [] ∧
    (1 : Int) < 2 ∧ (2 : Int) ≤ (([PyVal.str "x", PyVal.str "y", PyVal.str "z"] : List PyVal).length : Int) ∧
    (localCallTool gZero "get_random_choice"
        (some [("choices", .arr [.str "x", .str "y", .str "z"]), ("count", .int 2),
               ("allow_duplicates", .bool false)]) =
      .ok [.text "Random choices: [\x27x\x27, \x27y\x27]"]) ∧
    (pySample gZero [.str "x", .str "y", .str "z"] (2 : Int).toNat).length = (2 : Int).toNat ∧
    (localCallTool gZero "get_random_choice"
        (some [("choices", .arr [.str "x", .str "y", .str "z"]), ("count", .int 7),
               ("allow_duplicates", .bool false)]) =
      .ok [.text "Error: cannot select 7 unique items from 3 choices. Set allow_duplicates=true or reduce count."]) := by
  have h := c3_random_choice gZero [PyVal.str "x", PyVal.str "y", PyVal.str "z"] 2
    (by simp) (by decide) (by decide)
  refine ⟨by simp, by decide, by decide, h.1.trans (by rfl), h.2.2.1, ?_⟩
  exact ((h.2.2.2.2.2 7 (by decide)).1).trans (by rfl)

/-- C3.  As stated, the claim fails on the code: when `choices` itself
contains duplicate entries, sampling without replacement draws distinct
positions but can return equal values — with `choices = ["a","a"]` and
`count = 2 = len(choices)` the call succeeds and returns the sequence
`["a", "a"]`, whose two elements are not pairwise distinct. -/
theorem c3_counterexample :
    localCallTool gZero "get_random_choice"
      (some [("choices", .arr [.str "a", .str "a"]), ("count", .int 2),
             ("allow_duplicates", .bool false)]) =
      .ok [.text "Random choices: [\x27a\x27, \x27a\x27]"] ∧
    pySample gZero [.str "a", .str "a"] 2 = [.str "a", .str "a"] ∧
    ¬ (pySample gZero [.str "a", .str "a"] 2).Nodup := by
  refine ⟨rfl, rfl, ?_⟩
  intro h
  rw [show pySample gZero [.str "a", .str "a"] 2 = [.str "a", .str "a"] from rfl] at h
  exact (List.nodup_cons.mp h).1 (by simp)
